import Mathlib

/-!
# Verification of the db2pgpy migration core

Shallow embedding of the resumable migration pipeline of `db2pgpy`:

* `progress.py`   — `ProgressTracker` (the checkpoint store),
* `data_transfer.py` — `DataTransfer.transfer_table`,
* `sequence_manager.py` — `SequenceManager` (create / resync of sequences),
* `migrator.py`   — `Migrator.run_migration`,
* `cli.py`        — the resume command's incomplete-table filter.

Database collaborators (connectors, extractors, converters) are modelled as
explicit environments recording, for each call the core makes, whether the
call raises and what value it returns.  Every call the core issues is
recorded in an event trace, so theorems can count "how many DDL /
extraction / transfer calls were made against table T".  Wall-clock fields
(`total_time`, `last_updated` timestamps) are not modelled: they carry no
program logic.  Python `int` is modelled as `Int`, Python `float`
percentages as `ℚ`.
-/

namespace Db2pgpy

/-! ## Checkpoint store (`progress.py`)

`ProgressTracker.update_table_progress` stores
`percentage = round(rows_migrated / total_rows * 100, 2)` when
`total_rows > 0`, else `0`.  Python's `round(x, 2)` rounds the binary double
nearest to `x` to two decimal places (ties to even); we model it over `ℚ` as
rounding to the nearest multiple of `1/100`.  Exact ties at the hundredths
are not representable as binary doubles, so off ties the model agrees with
the source. -/

def round2 (q : ℚ) : ℚ := (round (q * 100) : ℤ) / 100

/-- Per-table progress record (`progress.py` lines 100-105), minus the
wall-clock `last_updated` field. -/
structure TableProgress where
  rows_migrated : Int
  total_rows : Int
  percentage : ℚ
deriving DecidableEq, Repr

/-- The value `update_table_progress` stores for a table
(`progress.py` line 100-105). -/
def mkTableProgress (rows total : Int) : TableProgress :=
  { rows_migrated := rows
    total_rows := total
    percentage := if total > 0 then round2 ((rows : ℚ) / (total : ℚ) * 100) else 0 }

/-- `self.state` of `ProgressTracker`: phase, completed phases, and the
per-table progress dict (an insertion-ordered association list, as Python
dicts are). -/
structure CPState where
  phase : String
  completed_phases : List String
  tables : List (String × TableProgress)
deriving DecidableEq, Repr

/-- The dict literal `ProgressTracker.__init__` / `reset` install
(`progress.py` lines 19-24 and 145-150). -/
def emptyState : CPState :=
  { phase := "not_started", completed_phases := [], tables := [] }

/-- Lookup in the `tables` dict (`self.state["tables"].get(name)`). -/
def lookupTable : List (String × TableProgress) → String → Option TableProgress
  | [], _ => none
  | (k, v) :: rest, t => if k = t then some v else lookupTable rest t

/-- Python dict assignment `self.state["tables"][name] = entry`: replace the
entry in place if the key is present, else append it. -/
def upsert : List (String × TableProgress) → String → TableProgress →
    List (String × TableProgress)
  | [], t, v => [(t, v)]
  | (k, w) :: rest, t, v =>
      if k = t then (t, v) :: rest else (k, w) :: upsert rest t v

/-- `ProgressTracker.update_table_progress` (`progress.py` lines 91-106);
the trailing `save()` only persists the state and is not modelled. -/
def update_table_progress (s : CPState) (t : String) (rows total : Int) : CPState :=
  { s with tables := upsert s.tables t (mkTableProgress rows total) }

/-- `ProgressTracker.update_progress` (`progress.py` lines 108-120):
`total_rows = existing.get("total_rows", rows_transferred)`, then delegate
to `update_table_progress`. -/
def update_progress (s : CPState) (t : String) (rows : Int) : CPState :=
  let total :=
    match lookupTable s.tables t with
    | some tp => tp.total_rows
    | none => rows
  update_table_progress s t rows total

/-- `ProgressTracker.reset` (`progress.py` lines 143-151). -/
def resetState (_s : CPState) : CPState := emptyState

/-- One mutating operation on the checkpoint store (the mutators named by
the spec's invariant: `update_table_progress`, `update_progress`,
`reset`). -/
inductive CPOp where
  | updateTableProgress (t : String) (rows total : Int)
  | updateProgress (t : String) (rows : Int)
  | reset
deriving DecidableEq, Repr

def applyCPOp (s : CPState) : CPOp → CPState
  | .updateTableProgress t rows total => update_table_progress s t rows total
  | .updateProgress t rows => update_progress s t rows
  | .reset => resetState s

/-- Summary record returned by `ProgressTracker.get_summary`
(`progress.py` lines 153-176), minus `last_updated`. -/
structure Summary where
  current_phase : String
  completed_phases : List String
  total_tables : Nat
  completed_tables : Nat
  total_rows : Int
  migrated_rows : Int
  overall_percentage : ℚ
deriving DecidableEq, Repr

/-- `ProgressTracker.get_summary` (`progress.py` lines 153-176). -/
def get_summary (s : CPState) : Summary :=
  let tables := s.tables
  let total_rows := (tables.map (fun p => p.2.total_rows)).sum
  let migrated_rows := (tables.map (fun p => p.2.rows_migrated)).sum
  { current_phase := s.phase
    completed_phases := s.completed_phases
    total_tables := tables.length
    completed_tables :=
      (tables.filter (fun p => p.2.rows_migrated = p.2.total_rows)).length
    total_rows := total_rows
    migrated_rows := migrated_rows
    overall_percentage :=
      if total_rows > 0 then round2 ((migrated_rows : ℚ) / (total_rows : ℚ) * 100)
      else 0 }

/-! ### Loading the backing file (`progress.py` lines 11-37)

`__init__` installs the empty state and, if the file exists, runs `_load`:

    try:
        with open(self.state_file, 'r') as f:
            self.state = json.load(f)
    except (json.JSONDecodeError, IOError):
        pass

The file is opened in text mode, so `json.load` first decodes the bytes
as text (UTF-8 under the default locale) and then parses JSON.  The
`except` clause catches `json.JSONDecodeError` (a `ValueError` subclass)
and `IOError` (= `OSError`).  A `UnicodeDecodeError` raised by the decode
step is a `ValueError` but neither a `JSONDecodeError` nor an `OSError`,
so it propagates out of `_load`.  We model the outcome of reading the
backing file as one of four cases accordingly. -/

/-- Outcome of opening/reading/parsing the backing checkpoint file. -/
inductive FileRead where
  /-- `open`/`read` raised `IOError`/`OSError`. -/
  | ioError
  /-- the bytes are not valid text under the stream encoding (UTF-8):
  `json.load` raises `UnicodeDecodeError`. -/
  | notUtf8
  /-- the text is not valid JSON: `json.load` raises `json.JSONDecodeError`. -/
  | badJson
  /-- the file parses to a checkpoint-shaped JSON document. -/
  | json (s : CPState)
deriving DecidableEq, Repr

/-- Exceptions that can escape `ProgressTracker.__init__`. -/
inductive PyExn where
  | unicodeDecodeError
deriving DecidableEq, Repr

/-- `ProgressTracker.__init__` + `_load` (`progress.py` lines 11-37):
`none` = the state file does not exist (no `_load` call).  The caught
exception classes are exactly `json.JSONDecodeError` and `IOError`. -/
def trackerInit (file : Option FileRead) : Except PyExn CPState :=
  match file with
  | none => .ok emptyState
  | some .ioError => .ok emptyState
  | some .notUtf8 => .error .unicodeDecodeError
  | some .badJson => .ok emptyState
  | some (.json s) => .ok s

/-! ## Data transfer (`data_transfer.py`)

`DataTransfer.transfer_table` iterates the finite batch sequence produced by
`db2_connector.fetch_table_data(table, batch_size)`; for each non-empty
batch it calls `pg_connector.bulk_insert`, adds the batch length to the
running total, and calls `progress_tracker.update_progress` with the
cumulative total.  We model a row as an opaque scalar (`Nat`) and record
each target call in a trace. -/

/-- A call `transfer_table` makes against the target / the checkpoint
store. -/
inductive TEvent where
  | bulkInsert (t : String) (batch : List Nat)
  | progressUpdate (t : String) (cum : Nat)
deriving DecidableEq, Repr

/-- The `for batch in batches` loop of `DataTransfer.transfer_table`
(`data_transfer.py` lines 42-52), threading the running `total_rows`. -/
def transferLoop (t : String) : List (List Nat) → Nat → List TEvent × Nat
  | [], total => ([], total)
  | b :: rest, total =>
      if b = [] then transferLoop t rest total
      else
        let total' := total + b.length
        let (evs, fin) := transferLoop t rest total'
        (TEvent.bulkInsert t b :: TEvent.progressUpdate t total' :: evs, fin)

/-- `DataTransfer.transfer_table` (`data_transfer.py` lines 26-59):
returns the trace of target/checkpoint calls and the `rows_transferred`
statistic (`time_taken` is wall clock and not modelled).  `batches` is the
finite sequence yielded by `fetch_table_data`. -/
def transfer_table (t : String) (batches : List (List Nat)) : List TEvent × Nat :=
  transferLoop t batches 0

/-- The bulk-insert calls appearing in a transfer trace. -/
def insertsOf : List TEvent → List (List Nat)
  | [] => []
  | .bulkInsert _ b :: rest => b :: insertsOf rest
  | .progressUpdate _ _ :: rest => insertsOf rest

/-- The cumulative totals reported to the checkpoint store, in order. -/
def updatesOf : List TEvent → List Nat
  | [] => []
  | .bulkInsert _ _ :: rest => updatesOf rest
  | .progressUpdate _ c :: rest => c :: updatesOf rest

/-- Running cumulative sums of the non-empty batches, starting from `acc`
(what the spec's batch-accounting sentence predicts the checkpoint
updates to be). -/
def cumTotals (acc : Nat) : List (List Nat) → List Nat
  | [] => []
  | b :: rest => if b = [] then cumTotals acc rest
      else (acc + b.length) :: cumTotals (acc + b.length) rest

/-- The trace the spec's wording predicts: each non-empty batch contributes
one bulk write immediately followed by one cumulative checkpoint update;
empty batches contribute nothing. -/
def specTransferTrace (t : String) (acc : Nat) : List (List Nat) → List TEvent
  | [] => []
  | b :: rest => if b = [] then specTransferTrace t acc rest
      else TEvent.bulkInsert t b :: TEvent.progressUpdate t (acc + b.length) ::
        specTransferTrace t (acc + b.length) rest

/-! ## Sequence manager (`sequence_manager.py`)

The DB2-side lookups are modelled by the rows their queries return:
`none` stands for the query raising (every `execute_query` call in this
module is wrapped in `try/except`). -/

/-- One row of the `MAXSEQUENCE` lookup
(`SELECT TBNAME, NAME, MAXRESERVED, SEQUENCENAME ... WHERE TBNAME = table`);
all returned rows have `TBNAME = table`, and `SEQUENCENAME` is unused by
`create_sequence_for_column`, so only `NAME` and `MAXRESERVED` are kept. -/
structure MaxSeqRow where
  name : String
  maxreserved : Int
deriving DecidableEq, Repr

/-- `SequenceManager.get_maxsequence_info` (`sequence_manager.py` lines
24-54): take the FIRST returned row if any; `none` input = the query
raised.  Result is `(column_name, current_value)`. -/
def get_maxsequence_info : Option (List MaxSeqRow) → Option (String × Int)
  | none => none
  | some [] => none
  | some (r :: _) => some (r.name, r.maxreserved)

/-- `SequenceManager.get_max_value_from_table` (`sequence_manager.py` lines
56-77): `none` input = the query raised, returned no rows, or `MAX` was
NULL; any of these yields `0`. -/
def get_max_value_from_table : Option Int → Int
  | none => 0
  | some v => v

/-- `sequence_name = f"{table}_{column}_seq".lower()`
(`sequence_manager.py` line 98). -/
def sequenceNameFor (table column : String) : String :=
  (table ++ "_" ++ column ++ "_seq").toLower

/-- The start-value derivation of `create_sequence_for_column`
(`sequence_manager.py` lines 100-111): an explicit `start_value` wins;
else the first `MAXSEQUENCE` row, when its `NAME` equals the column, gives
`MAXRESERVED + 1`; else `MAX(column) + 1` when that maximum is positive,
else `1`. -/
def deriveStartValue (startValue : Option Int) (column : String)
    (maxseqRows : Option (List MaxSeqRow)) (maxQ : Option Int) : Int :=
  match startValue with
  | some v => v
  | none =>
      match get_maxsequence_info maxseqRows with
      | some (col, cur) =>
          if col = column then cur + 1
          else
            let m := get_max_value_from_table maxQ
            if m > 0 then m + 1 else 1
      | none =>
          let m := get_max_value_from_table maxQ
          if m > 0 then m + 1 else 1

/-- Whether each target-side DDL statement issued by
`create_sequence_for_column` succeeds (`pg_connector.execute_ddl` raising
is modelled as the flag being `false`; each call sits in its own
`try/except`). -/
structure SeqDDLEnv where
  createOk : Bool
  setDefaultOk : Bool
  ownershipOk : Bool
deriving DecidableEq, Repr

/-- Calls and log lines `create_sequence_for_column` produces. -/
inductive SEvent where
  | ddlCreateSeq (name : String) (start : Int)
  | ddlSetDefault (t c : String)
  | ddlSetOwnership (name : String)
  /-- a `logger.warning` for a failed DDL step. -/
  | warnLog
deriving DecidableEq, Repr

/-- `SequenceManager.create_sequence_for_column` (`sequence_manager.py`
lines 79-155): create the sequence (failure → log a warning, return
`None`); set the column default (failure → log a warning, continue); set
ownership (failure → log a warning, continue); return the sequence name.
No exception escapes: all three DDL calls and both DB2 lookups are inside
`try/except`. -/
def create_sequence_for_column (env : SeqDDLEnv) (startValue : Option Int)
    (table column : String) (maxseqRows : Option (List MaxSeqRow))
    (maxQ : Option Int) : List SEvent × Option String :=
  let name := sequenceNameFor table column
  let sv := deriveStartValue startValue column maxseqRows maxQ
  let ev := [SEvent.ddlCreateSeq name sv]
  if env.createOk then
    let ev := ev ++ [SEvent.ddlSetDefault table column]
    let ev := if env.setDefaultOk then ev else ev ++ [SEvent.warnLog]
    let ev := ev ++ [SEvent.ddlSetOwnership name]
    let ev := if env.ownershipOk then ev else ev ++ [SEvent.warnLog]
    (ev, some name)
  else
    (ev ++ [SEvent.warnLog], none)

/-- `SequenceManager.create_sequences_for_table` (`sequence_manager.py`
lines 157-186): loop over the PK columns, collect the names of the
successfully created sequences; a column's failure (`None` result) does
not stop the loop.  The per-column DDL outcomes and `MAX` lookup results
are environments indexed by column. -/
def create_sequences_for_table (env : String → SeqDDLEnv) (table : String)
    (pkColumns : List String) (maxseqRows : Option (List MaxSeqRow))
    (maxQ : String → Option Int) : List SEvent × List String :=
  match pkColumns with
  | [] => ([], [])
  | c :: rest =>
      let r := create_sequence_for_column (env c) none table c maxseqRows (maxQ c)
      let tailRes := create_sequences_for_table env table rest maxseqRows maxQ
      (r.1 ++ tailRes.1,
        match r.2 with | some n => n :: tailRes.2 | none => tailRes.2)

/-- Outcomes of the two target-side calls `sync_sequence_after_insert`
makes (`SELECT MAX` and the `setval` call); `false` = the call raises. -/
structure SyncEnv where
  selectOk : Bool
  setvalOk : Bool
deriving DecidableEq, Repr

/-- `SequenceManager.sync_sequence_after_insert` (`sequence_manager.py`
lines 188-231).  `tableMax` is the `MAX(column)` over the target table
(`none` = table empty / all NULL).  `seqNext` is the sequence's current
next-value; `setval(seq, v, false)` makes the next `nextval` return `v`.
Returns `(new next-value, returned bool, number of setval calls issued)`.
A failed `setval` is modelled as leaving the sequence unchanged. -/
def sync_sequence_after_insert (env : SyncEnv) (tableMax : Option Int)
    (seqNext : Int) : Int × Bool × Nat :=
  if env.selectOk then
    match tableMax with
    | none => (seqNext, true, 0)
    | some m =>
        if env.setvalOk then (m + 1, true, 1) else (seqNext, false, 1)
  else (seqNext, false, 0)

/-! ## Migrator (`migrator.py`)

`Migrator.run_migration` drives the per-table pipeline.  Each fallible
collaborator call is given by an environment value `Except Unit α`
(`.error` = the call raises).  Schema/DDL *rendering* by the converters is
pure and never raises (spec §1/§4 treats the converters as correct,
side-effect-free collaborators), so it produces no event.  The
`conn.rollback()` issued in the `continue_on_error` handler touches no
table and is not a counted call.  `total_time` is wall clock and not
modelled. -/

/-- Per-table behaviour of the collaborators during one run: the result
(or raise) of each call `run_migration` can make against that table. -/
structure TableBehavior where
  /-- `schema_extractor.extract_table_schema` (schema payload is opaque). -/
  extractSchema : Except Unit Unit
  /-- `schema_extractor.extract_primary_keys`. -/
  extractPKs : Except Unit (List String)
  /-- `schema_extractor.extract_foreign_keys`. -/
  extractFKs : Except Unit Unit
  /-- `schema_extractor.extract_indexes`. -/
  extractIndexes : Except Unit Unit
  /-- `pg_connector.table_exists`. -/
  tableExists : Except Unit Bool
  /-- `pg_connector.execute_ddl` on the `DROP TABLE` statement. -/
  dropDDL : Except Unit Unit
  /-- `pg_connector.execute_ddl` on the rendered `CREATE TABLE` statement. -/
  createDDL : Except Unit Unit
  /-- `pg_connector.execute_ddl` on the primary-key statement. -/
  pkDDL : Except Unit Unit
  /-- `data_transfer.transfer_table`. -/
  transfer : Except Unit Unit
  /-- `validator.validate_row_counts`. -/
  validate : Except Unit Unit

/-- The constructor flags of `Migrator` consulted by `run_migration`. -/
structure MigratorFlags where
  create_sequences : Bool
  drop_existing : Bool
  skip_data_if_exists : Bool
deriving DecidableEq, Repr

/-- A call `run_migration` makes against a collaborator, tagged with the
table it concerns. -/
inductive MEvent where
  | extractSchema (t : String)
  | extractPKs (t : String)
  | extractFKs (t : String)
  | extractIndexes (t : String)
  | tableExistsQ (t : String)
  | ddlDropTable (t : String)
  | ddlCreateTable (t : String)
  | ddlPrimaryKey (t : String)
  /-- `sequence_manager.create_sequences_for_table` — issues its own DDL
  internally and never raises (every `execute_ddl` / `execute_query` in
  `sequence_manager.py` sits in a `try/except`). -/
  | createSequencesFor (t : String)
  | transferTable (t : String)
  | validateRowCounts (t : String)
deriving DecidableEq, Repr

/-- The table a call concerns. -/
def MEvent.table : MEvent → String
  | .extractSchema t => t
  | .extractPKs t => t
  | .extractFKs t => t
  | .extractIndexes t => t
  | .tableExistsQ t => t
  | .ddlDropTable t => t
  | .ddlCreateTable t => t
  | .ddlPrimaryKey t => t
  | .createSequencesFor t => t
  | .transferTable t => t
  | .validateRowCounts t => t

/-- Whether a call is a `pg_connector.execute_ddl` call. -/
def MEvent.isDDL : MEvent → Bool
  | .ddlDropTable _ => true
  | .ddlCreateTable _ => true
  | .ddlPrimaryKey _ => true
  | _ => false

/-- Whether a call is a schema-extraction call. -/
def MEvent.isExtraction : MEvent → Bool
  | .extractSchema _ => true
  | .extractPKs _ => true
  | .extractFKs _ => true
  | .extractIndexes _ => true
  | _ => false

/-- Phases 4-5 of the per-table pipeline (`migrator.py` lines 129-137):
transfer unless `schema_only`, validate unless `schema_only` or disabled.
Returns the events of these phases and whether an exception was raised. -/
def phases45 (b : TableBehavior) (mode : String) (validateEnabled : Bool)
    (t : String) : List MEvent × Bool :=
  if mode = "schema_only" then ([], false)
  else
    match b.transfer with
    | .error _ => ([MEvent.transferTable t], true)
    | .ok _ =>
        if validateEnabled then
          match b.validate with
          | .error _ => ([MEvent.transferTable t, MEvent.validateRowCounts t], true)
          | .ok _ => ([MEvent.transferTable t, MEvent.validateRowCounts t], false)
        else ([MEvent.transferTable t], false)

/-- Phase 3 from the point where `table_exists` has been resolved
(`migrator.py` lines 103-127), then phases 4-5.  `te` is the (possibly
drop-updated) `table_exists` value. -/
def phase3rest (fl : MigratorFlags) (b : TableBehavior) (mode : String)
    (validateEnabled : Bool) (t : String) (te : Bool) (pks : List String) :
    List MEvent × Bool :=
  if te then
    if fl.skip_data_if_exists ∧ mode ≠ "schema_only" then ([], false)
    else if mode = "schema_only" then ([], false)
    else phases45 b mode validateEnabled t
  else
    match b.createDDL with
    | .error _ => ([MEvent.ddlCreateTable t], true)
    | .ok _ =>
        if pks ≠ [] then
          match b.pkDDL with
          | .error _ => ([MEvent.ddlCreateTable t, MEvent.ddlPrimaryKey t], true)
          | .ok _ =>
              let seqEv := if fl.create_sequences then [MEvent.createSequencesFor t] else []
              let p := phases45 b mode validateEnabled t
              ([MEvent.ddlCreateTable t, MEvent.ddlPrimaryKey t] ++ seqEv ++ p.1, p.2)
        else
          let p := phases45 b mode validateEnabled t
          (MEvent.ddlCreateTable t :: p.1, p.2)

/-- The body of the `for table_name in tables` loop of
`Migrator.run_migration` (`migrator.py` lines 77-139) for a single table:
the trace of collaborator calls and whether an exception was raised
(caught or re-raised by the loop's handler). -/
def processTable (fl : MigratorFlags) (env : String → TableBehavior)
    (mode : String) (validateEnabled : Bool) (t : String) : List MEvent × Bool :=
  let b := env t
  match b.extractSchema with
  | .error _ => ([MEvent.extractSchema t], true)
  | .ok _ =>
  match b.extractPKs with
  | .error _ => ([MEvent.extractSchema t, MEvent.extractPKs t], true)
  | .ok pks =>
  match b.extractFKs with
  | .error _ => ([MEvent.extractSchema t, MEvent.extractPKs t, MEvent.extractFKs t], true)
  | .ok _ =>
  match b.extractIndexes with
  | .error _ =>
      ([MEvent.extractSchema t, MEvent.extractPKs t, MEvent.extractFKs t,
        MEvent.extractIndexes t], true)
  | .ok _ =>
  let ev0 := [MEvent.extractSchema t, MEvent.extractPKs t, MEvent.extractFKs t,
    MEvent.extractIndexes t, MEvent.tableExistsQ t]
  match b.tableExists with
  | .error _ => (ev0, true)
  | .ok te0 =>
  if te0 ∧ fl.drop_existing then
    match b.dropDDL with
    | .error _ => (ev0 ++ [MEvent.ddlDropTable t], true)
    | .ok _ =>
        let p := phase3rest fl b mode validateEnabled t false pks
        (ev0 ++ [MEvent.ddlDropTable t] ++ p.1, p.2)
  else
    let p := phase3rest fl b mode validateEnabled t te0 pks
    (ev0 ++ p.1, p.2)

/-- The aggregate result dict of `run_migration` (`migrator.py` lines
163-168), minus the wall-clock `total_time`. -/
structure MigrationResult where
  status : String
  tables_migrated : Nat
  tables_failed : Nat
deriving DecidableEq, Repr

/-- The migration config dict consulted by `run_migration`:
`config.get('tables', [])`, `config.get('validate', True)`,
`config.get('continue_on_error', False)` — defaults are the caller's
concern here, the record holds the effective values. -/
structure MigrationConfig where
  tables : List String
  validate : Bool
  continue_on_error : Bool
deriving DecidableEq, Repr

/-- The table loop of `run_migration` (`migrator.py` lines 77-156):
on a per-table exception, count the failure and continue when
`continue_on_error`, else re-raise (the whole run produces no result;
the `.error` carries the trace up to the raise). -/
def runLoop (fl : MigratorFlags) (env : String → TableBehavior) (mode : String)
    (validateEnabled coe : Bool) :
    List String → List MEvent → Nat → Nat →
    Except (List MEvent) (List MEvent × Nat × Nat)
  | [], ev, migrated, failed => .ok (ev, migrated, failed)
  | t :: rest, ev, migrated, failed =>
      let p := processTable fl env mode validateEnabled t
      if p.2 then
        if coe then
          runLoop fl env mode validateEnabled coe rest (ev ++ p.1) migrated (failed + 1)
        else .error (ev ++ p.1)
      else runLoop fl env mode validateEnabled coe rest (ev ++ p.1) (migrated + 1) failed

/-- `Migrator.run_migration` (`migrator.py` lines 57-168): returns the
full call trace and the summary, or — when a table fails with
`continue_on_error=False` — propagates the exception (`.error` with the
trace up to that point). -/
def run_migration (fl : MigratorFlags) (env : String → TableBehavior)
    (cfg : MigrationConfig) (mode : String) :
    Except (List MEvent) (List MEvent × MigrationResult) :=
  match runLoop fl env mode cfg.validate cfg.continue_on_error cfg.tables [] 0 0 with
  | .error ev => .error ev
  | .ok (ev, migrated, failed) =>
      .ok (ev,
        { status := if failed = 0 then "completed" else "completed_with_errors"
          tables_migrated := migrated
          tables_failed := failed })

/-- The resume command's incomplete-table filter (`cli.py` lines 365-369):
keep a table when it has no checkpoint entry or its `rows_migrated` is
strictly below its `total_rows`; the filtered list is what the resume
command passes to `run_migration`. -/
def incompleteTables (allTables : List String)
    (progress : List (String × TableProgress)) : List String :=
  allTables.filter (fun t =>
    match lookupTable progress t with
    | none => true
    | some tp => tp.rows_migrated < tp.total_rows)

/-! ## Concrete fixtures

Mock collaborator behaviours and the traces the embedded functions produce
on them, used by the concrete scenarios below. -/

/-- A table for which every collaborator call succeeds, the extractor
reports no PK columns, and the target table does not exist yet. -/
def okB : TableBehavior :=
  { extractSchema := .ok (), extractPKs := .ok [], extractFKs := .ok ()
    extractIndexes := .ok (), tableExists := .ok false, dropDDL := .ok ()
    createDDL := .ok (), pkDDL := .ok (), transfer := .ok (), validate := .ok () }

/-- Like `okB`, but the target table already exists. -/
def okBExists : TableBehavior := { okB with tableExists := .ok true }

/-- Like `okB`, but the `CREATE TABLE` DDL call always raises. -/
def badDDLB : TableBehavior := { okB with createDDL := .error () }

/-- Environment for the partial-failure scenario: table `B`'s DDL step
always raises, every other table behaves like `okB`. -/
def envC2 : String → TableBehavior := fun t => if t = "B" then badDDLB else okB

/-- The `Migrator` constructor defaults (`migrator.py` lines 26-28):
`create_sequences=True`, `drop_existing=False`, `skip_data_if_exists=True`. -/
def flagsDflt : MigratorFlags :=
  { create_sequences := true, drop_existing := false, skip_data_if_exists := true }

/-- The calls `run_migration` makes in `full` mode for a table behaving
like `okB` (no PK columns, target table absent, validation on). -/
def fullPipelineTrace (t : String) : List MEvent :=
  [MEvent.extractSchema t, MEvent.extractPKs t, MEvent.extractFKs t,
   MEvent.extractIndexes t, MEvent.tableExistsQ t, MEvent.ddlCreateTable t,
   MEvent.transferTable t, MEvent.validateRowCounts t]

/-- The calls made for table `B` (behaviour `badDDLB`) up to and including
the raising `CREATE TABLE` call. -/
def failAtDDLTrace (t : String) : List MEvent :=
  [MEvent.extractSchema t, MEvent.extractPKs t, MEvent.extractFKs t,
   MEvent.extractIndexes t, MEvent.tableExistsQ t, MEvent.ddlCreateTable t]

/-- A checkpoint `tables` dict recording table `A` as fully migrated
(`rows_migrated = total_rows = 5`). -/
def cpA55 : List (String × TableProgress) := [("A", mkTableProgress 5 5)]

/-- The percentage invariant the code actually maintains: the stored
percentage is the two-decimal rounding of `rows_migrated / total_rows * 100`
when `total_rows > 0`, else `0`. -/
def pctInv (tp : TableProgress) : Prop :=
  tp.percentage =
    if tp.total_rows > 0 then
      round2 ((tp.rows_migrated : ℚ) / (tp.total_rows : ℚ) * 100)
    else 0

/-! # Helper lemmas -/

theorem mem_upsert {l : List (String × TableProgress)} {t : String}
    {v : TableProgress} {p : String × TableProgress}
    (h : p ∈ upsert l t v) : p = (t, v) ∨ p ∈ l := by
  induction l with
  | nil =>
      simp only [upsert] at h
      exact Or.inl (List.mem_singleton.mp h)
  | cons hd tl ih =>
      obtain ⟨k, w⟩ := hd
      simp only [upsert] at h
      split at h
      · rcases List.mem_cons.mp h with h | h
        · exact Or.inl h
        · exact Or.inr (List.mem_cons_of_mem _ h)
      · rcases List.mem_cons.mp h with h | h
        · exact Or.inr (by rw [h]; exact List.mem_cons_self _ _)
        · rcases ih h with h' | h'
          · exact Or.inl h'
          · exact Or.inr (List.mem_cons_of_mem _ h')

theorem lookup_upsert (l : List (String × TableProgress)) (t : String)
    (v : TableProgress) : lookupTable (upsert l t v) t = some v := by
  induction l with
  | nil => simp [upsert, lookupTable]
  | cons hd tl ih =>
      obtain ⟨k, w⟩ := hd
      by_cases hk : k = t
      · simp [upsert, hk, lookupTable]
      · simp [upsert, hk, lookupTable, ih]

theorem upsert_of_lookup_none (l : List (String × TableProgress)) (t : String)
    (v : TableProgress) (h : lookupTable l t = none) :
    upsert l t v = l ++ [(t, v)] := by
  induction l with
  | nil => simp [upsert]
  | cons hd tl ih =>
      obtain ⟨k, w⟩ := hd
      simp only [lookupTable] at h
      by_cases hk : k = t
      · simp [hk] at h
      · rw [if_neg hk] at h
        simp only [upsert, if_neg hk, List.cons_append, List.cons.injEq, true_and]
        exact ih h

theorem pctInv_mk (rows total : Int) : pctInv (mkTableProgress rows total) := rfl

theorem round2_hundred : round2 100 = 100 := by
  have h : round ((100 : ℚ) * 100) = 10000 := by
    rw [show ((100 : ℚ) * 100) = 10000 by norm_num, round_eq, Int.floor_eq_iff]
    constructor <;> norm_num
  simp only [round2]
  rw [h]
  norm_num

theorem round2_third : round2 ((1 : ℚ) / 3 * 100) = 3333 / 100 := by
  have h : round ((1 : ℚ) / 3 * 100 * 100) = 3333 := by
    rw [round_eq, show ((1 : ℚ) / 3 * 100 * 100 + 1 / 2) = 20003 / 6 by norm_num,
      Int.floor_eq_iff]
    constructor <;> norm_num
  simp only [round2]
  rw [h]
  norm_num

theorem toLower_append (a b : String) : (a ++ b).toLower = a.toLower ++ b.toLower := by
  simp [String.toLower, String.map_eq]
  rfl

/-- The `CREATE SEQUENCE` statement is always the first DDL call
`create_sequence_for_column` issues, whatever the outcomes. -/
theorem create_event_mem (e : SeqDDLEnv) (table c : String)
    (rows : Option (List MaxSeqRow)) (q : Option Int) :
    SEvent.ddlCreateSeq (sequenceNameFor table c) (deriveStartValue none c rows q) ∈
      (create_sequence_for_column e none table c rows q).1 := by
  obtain ⟨co, sd, ow⟩ := e
  cases co <;> cases sd <;> cases ow <;> simp [create_sequence_for_column]

theorem transferLoop_spec (t : String) :
    ∀ (batches : List (List Nat)) (acc : Nat),
    transferLoop t batches acc =
      (specTransferTrace t acc batches, acc + (batches.map List.length).sum) := by
  intro batches
  induction batches with
  | nil => intro acc; simp [transferLoop, specTransferTrace]
  | cons b rest ih =>
      intro acc
      by_cases hb : b = []
      · simp [transferLoop, specTransferTrace, hb, ih]
      · simp only [transferLoop, specTransferTrace, hb, if_neg, ih, List.map_cons,
          List.sum_cons]
        simp [Nat.add_assoc]

theorem insertsOf_spec (t : String) :
    ∀ (batches : List (List Nat)) (acc : Nat),
    insertsOf (specTransferTrace t acc batches) =
      batches.filter (fun b => ¬ b = []) := by
  intro batches
  induction batches with
  | nil => intro acc; simp [specTransferTrace, insertsOf]
  | cons b rest ih =>
      intro acc
      by_cases hb : b = []
      · simp [specTransferTrace, hb, ih]
      · simp [specTransferTrace, hb, insertsOf, ih]

theorem updatesOf_spec (t : String) :
    ∀ (batches : List (List Nat)) (acc : Nat),
    updatesOf (specTransferTrace t acc batches) = cumTotals acc batches := by
  intro batches
  induction batches with
  | nil => intro acc; simp [specTransferTrace, cumTotals, updatesOf]
  | cons b rest ih =>
      intro acc
      by_cases hb : b = []
      · simp [specTransferTrace, cumTotals, hb, ih]
      · simp [specTransferTrace, cumTotals, hb, updatesOf, ih]

/-- Phases 4-5 never issue DDL calls. -/
theorem phases45_noDDL (b : TableBehavior) (mode : String) (v : Bool) (t : String) :
    ∀ e ∈ (phases45 b mode v t).1, e.isDDL = false := by
  intro e he
  simp only [phases45] at he
  split at he
  · simp at he
  · revert he
    cases b.transfer with
    | error u => intro he; simp at he; subst he; rfl
    | ok u =>
        by_cases hv : v = true
        · cases b.validate with
          | error u2 => intro he; simp [hv] at he; rcases he with rfl | rfl <;> rfl
          | ok u2 => intro he; simp [hv] at he; rcases he with rfl | rfl <;> rfl
        · intro he; simp [hv] at he; subst he; rfl

/-- When the target table exists, the rest of phase 3 (and phases 4-5)
issues no DDL call. -/
theorem phase3rest_exists_noDDL (fl : MigratorFlags) (b : TableBehavior)
    (mode : String) (v : Bool) (t : String) (pks : List String) :
    ∀ e ∈ (phase3rest fl b mode v t true pks).1, e.isDDL = false := by
  intro e he
  simp only [phase3rest, if_true] at he
  split at he
  · simp at he
  · split at he
    · simp at he
    · exact phases45_noDDL b mode v t e he

/-- `phases45` does not distinguish mode `data_only` from mode `full`. -/
theorem phases45_mode (b : TableBehavior) (v : Bool) (t : String) :
    phases45 b "data_only" v t = phases45 b "full" v t := by
  simp [phases45]

/-- `phase3rest` does not distinguish mode `data_only` from mode `full`. -/
theorem phase3rest_mode (fl : MigratorFlags) (b : TableBehavior) (v : Bool)
    (t : String) (te : Bool) (pks : List String) :
    phase3rest fl b "data_only" v t te pks = phase3rest fl b "full" v t te pks := by
  simp [phase3rest, phases45_mode]

/-! # Claim theorems -/

/-- C8: loading the checkpoint store yields the empty `CheckpointState`
when the backing file is missing, unreadable (`IOError`), or not valid
JSON, and loads a well-formed file's state verbatim; but a backing file
whose bytes are not valid UTF-8 under the text-mode encoding makes `_load`
raise `UnicodeDecodeError` — a deserialization failure caught by neither
`json.JSONDecodeError` nor `IOError` — refuting "for every backing file
content, loading the checkpoint store never raises". -/
theorem c8_load_behaviour :
    trackerInit none = .ok emptyState ∧
    trackerInit (some .ioError) = .ok emptyState ∧
    trackerInit (some .badJson) = .ok emptyState ∧
    (∀ s : CPState, trackerInit (some (.json s)) = .ok s) ∧
    trackerInit (some .notUtf8) = .error .unicodeDecodeError :=
  ⟨rfl, rfl, rfl, fun _ => rfl, rfl⟩

/-- C9 counterexample: after `update_table_progress(t, 1, 3)` the stored
percentage is `33.33` — the two-decimal rounding — and not the claimed
exact quotient `rows_migrated / total_rows * 100 = 100/3`. -/
theorem c9_percentage_counterexample :
    (update_table_progress emptyState "t" 1 3).tables =
      [("t", mkTableProgress 1 3)] ∧
    (mkTableProgress 1 3).percentage = 3333 / 100 ∧
    (mkTableProgress 1 3).percentage ≠ (1 : ℚ) / 3 * 100 := by
  have hc : ((1 : Int) : ℚ) / ((3 : Int) : ℚ) * 100 = (1 : ℚ) / 3 * 100 := by
    push_cast
    ring
  have hp : (mkTableProgress 1 3).percentage = 3333 / 100 := by
    simp only [mkTableProgress, hc]
    rw [if_pos (by norm_num : (3 : Int) > 0), round2_third]
  refine ⟨rfl, hp, ?_⟩
  rw [hp]
  norm_num

/-- C9 amended: every mutating checkpoint operation
(`update_table_progress`, `update_progress`, `reset`) maintains, for every
stored table entry, `percentage = round2(rows_migrated / total_rows * 100)`
when `total_rows > 0`, else `0` — the source stores the quotient rounded
to two decimal places, not the exact quotient. -/
theorem c9_percentage_invariant (s : CPState) (op : CPOp)
    (h : ∀ p ∈ s.tables, pctInv p.2) :
    ∀ p ∈ (applyCPOp s op).tables, pctInv p.2 := by
  intro p hp
  cases op with
  | updateTableProgress t rows total =>
      simp only [applyCPOp, update_table_progress] at hp
      rcases mem_upsert hp with h' | h'
      · rw [h']
        exact pctInv_mk rows total
      · exact h p h'
  | updateProgress t rows =>
      simp only [applyCPOp, update_progress, update_table_progress] at hp
      rcases mem_upsert hp with h' | h'
      · rw [h']
        exact pctInv_mk _ _
      · exact h p h'
  | reset =>
      simp [applyCPOp, resetState, emptyState] at hp

/-- Witness for C9 amended at a concrete input. -/
theorem c9_percentage_invariant_witness : pctInv (mkTableProgress 1 3) := by
  have h := c9_percentage_invariant emptyState (CPOp.updateTableProgress "t" 1 3)
    (by intro p hp; simp [emptyState] at hp)
  exact h ("t", mkTableProgress 1 3)
    (by
      rw [show (applyCPOp emptyState (CPOp.updateTableProgress "t" 1 3)).tables =
        [("t", mkTableProgress 1 3)] from rfl]
      exact List.mem_singleton.mpr rfl)

/-- C10: the first `update_progress(table, n)` for a table with no
checkpoint entry records `total_rows = n`; the entry then reads
`rows_migrated = total_rows` with percentage 100, and `get_summary`
counts the table as completed even though its transfer may only have
begun. -/
theorem c10_first_update_progress (s : CPState) (t : String) (n : Int)
    (habs : lookupTable s.tables t = none) (hpos : 0 < n) :
    lookupTable (update_progress s t n).tables t = some (mkTableProgress n n) ∧
    (mkTableProgress n n).rows_migrated = (mkTableProgress n n).total_rows ∧
    (mkTableProgress n n).percentage = 100 ∧
    (get_summary (update_progress s t n)).completed_tables =
      (get_summary s).completed_tables + 1 := by
  have hup : (update_progress s t n).tables = upsert s.tables t (mkTableProgress n n) := by
    simp only [update_progress, habs, update_table_progress]
  have hpct : (mkTableProgress n n).percentage = 100 := by
    have hn : ((n : ℚ)) ≠ 0 := by
      exact_mod_cast hpos.ne'
    simp only [mkTableProgress]
    rw [if_pos (by exact_mod_cast hpos), div_self hn, one_mul, round2_hundred]
  refine ⟨?_, rfl, hpct, ?_⟩
  · rw [hup, lookup_upsert]
  · rw [show (get_summary (update_progress s t n)).completed_tables =
      ((update_progress s t n).tables.filter
        (fun p => p.2.rows_migrated = p.2.total_rows)).length from rfl]
    rw [hup, upsert_of_lookup_none s.tables t _ habs, List.filter_append]
    simp [get_summary, mkTableProgress]

/-- C4: transferring a table whose source yields batches of sizes
`[2, 2, 1]` performs exactly 3 bulk writes, returns `rows_transferred = 5`,
and reports cumulative checkpoint totals `2, 4, 5`; in general the trace
is one bulk write immediately followed by one cumulative progress update
per non-empty batch (empty batches contribute neither), the reported
totals are the running sums of the non-empty batch sizes, and the result
is the total number of rows. -/
theorem c4_batch_accounting :
    transfer_table "T" [[1, 2], [3, 4], [5]] =
      ([.bulkInsert "T" [1, 2], .progressUpdate "T" 2,
        .bulkInsert "T" [3, 4], .progressUpdate "T" 4,
        .bulkInsert "T" [5], .progressUpdate "T" 5], 5) ∧
    (insertsOf (transfer_table "T" [[1, 2], [3, 4], [5]]).1).length = 3 ∧
    updatesOf (transfer_table "T" [[1, 2], [3, 4], [5]]).1 = [2, 4, 5] ∧
    (∀ (t : String) (batches : List (List Nat)),
      (transfer_table t batches).2 = (batches.map List.length).sum ∧
      (transfer_table t batches).1 = specTransferTrace t 0 batches ∧
      insertsOf (transfer_table t batches).1 = batches.filter (fun b => ¬ b = []) ∧
      updatesOf (transfer_table t batches).1 = cumTotals 0 batches) := by
  refine ⟨rfl, rfl, rfl, ?_⟩
  intro t batches
  have h := transferLoop_spec t batches 0
  refine ⟨?_, ?_, ?_, ?_⟩
  · rw [show transfer_table t batches = transferLoop t batches 0 from rfl, h]
    simp
  · rw [show transfer_table t batches = transferLoop t batches 0 from rfl, h]
  · rw [show transfer_table t batches = transferLoop t batches 0 from rfl, h]
    exact insertsOf_spec t batches 0
  · rw [show transfer_table t batches = transferLoop t batches 0 from rfl, h]
    exact updatesOf_spec t batches 0

/-- C5: when the target-side calls succeed,
`sync_sequence_after_insert` is idempotent — a second call on an
unchanged table yields the same resulting sequence next-value — and on an
empty table (MAX is NULL / no rows) it returns `True` without issuing any
`setval` call. -/
theorem c5_sync_idempotent (env : SyncEnv) (hsel : env.selectOk = true)
    (hset : env.setvalOk = true) (tableMax : Option Int) (seqNext : Int) :
    (sync_sequence_after_insert env tableMax
        (sync_sequence_after_insert env tableMax seqNext).1).1 =
      (sync_sequence_after_insert env tableMax seqNext).1 ∧
    (sync_sequence_after_insert env tableMax seqNext).2.1 = true ∧
    (∀ s : Int, sync_sequence_after_insert env none s = (s, true, 0)) := by
  cases tableMax <;> simp [sync_sequence_after_insert, hsel, hset]

/-- C6 counterexample: with `MAXSEQUENCE` rows `[(COLA, 10), (COLB, 20)]`
for the table, a matching (table, column) entry for `COLB` exists with
high-water mark 20, yet the derived start value for `COLB` is the
table-max fallback `5 + 1 = 6`, not `20 + 1 = 21`: the code inspects only
the FIRST row returned by the `MAXSEQUENCE` lookup. -/
theorem c6_start_value_counterexample :
    (⟨"COLB", 20⟩ : MaxSeqRow) ∈ [(⟨"COLA", 10⟩ : MaxSeqRow), ⟨"COLB", 20⟩] ∧
    deriveStartValue none "COLB"
      (some [⟨"COLA", 10⟩, ⟨"COLB", 20⟩]) (some 5) = 6 ∧
    (6 : Int) ≠ 20 + 1 := by
  refine ⟨by simp, rfl, by norm_num⟩

/-- C6 amended: with no explicit start value, the start is the
`MAXSEQUENCE` high-water mark plus one when the FIRST row of the lookup is
for the requested column; otherwise `MAX(column) + 1` over the source
table when that maximum is positive; otherwise `1` — and the sequence is
named `lower(table)_lower(column)_seq`. -/
theorem c6_start_value_derivation :
    (∀ (col : String) (cur : Int) (rest : List MaxSeqRow) (maxQ : Option Int),
      deriveStartValue none col (some (⟨col, cur⟩ :: rest)) maxQ = cur + 1) ∧
    (∀ (col : String) (rows : Option (List MaxSeqRow)) (m : Int),
      (∀ c cur, get_maxsequence_info rows = some (c, cur) → c ≠ col) → 0 < m →
      deriveStartValue none col rows (some m) = m + 1) ∧
    (∀ (col : String) (rows : Option (List MaxSeqRow)) (maxQ : Option Int),
      (∀ c cur, get_maxsequence_info rows = some (c, cur) → c ≠ col) →
      get_max_value_from_table maxQ ≤ 0 →
      deriveStartValue none col rows maxQ = 1) ∧
    (∀ (table column : String),
      sequenceNameFor table column =
        table.toLower ++ "_" ++ column.toLower ++ "_seq") := by
  refine ⟨?_, ?_, ?_, ?_⟩
  · intro col cur rest maxQ
    simp [deriveStartValue, get_maxsequence_info]
  · intro col rows m hnm hm
    rcases rows with _ | ⟨_ | ⟨r, rest⟩⟩
    · simp [deriveStartValue, get_maxsequence_info, get_max_value_from_table, hm]
    · simp [deriveStartValue, get_maxsequence_info, get_max_value_from_table, hm]
    · have hne : r.name ≠ col := hnm r.name r.maxreserved rfl
      simp [deriveStartValue, get_maxsequence_info, get_max_value_from_table, hne, hm]
  · intro col rows maxQ hnm hz
    have hlt : ¬ get_max_value_from_table maxQ > 0 := not_lt.mpr hz
    rcases rows with _ | ⟨_ | ⟨r, rest⟩⟩
    · simp [deriveStartValue, get_maxsequence_info, hlt]
    · simp [deriveStartValue, get_maxsequence_info, hlt]
    · have hne : r.name ≠ col := hnm r.name r.maxreserved rfl
      simp [deriveStartValue, get_maxsequence_info, hne, hlt]
  · intro table column
    simp only [sequenceNameFor]
    rw [toLower_append, toLower_append, toLower_append]
    rw [show ("_" : String).toLower = "_" by simp [String.toLower, String.map_eq],
      show ("_seq" : String).toLower = "_seq" by simp [String.toLower, String.map_eq]]

/-- Witness for C6 amended at concrete inputs. -/
theorem c6_start_value_derivation_witness :
    deriveStartValue none "ID" (some [⟨"ID", 41⟩]) (some 7) = 42 ∧
    deriveStartValue none "ID" (some [⟨"OTHER", 41⟩]) (some 7) = 8 ∧
    deriveStartValue none "ID" none none = 1 ∧
    sequenceNameFor "MYTABLE" "ID" =
      "MYTABLE".toLower ++ "_" ++ "ID".toLower ++ "_seq" :=
  ⟨c6_start_value_derivation.1 "ID" 41 [] (some 7),
   c6_start_value_derivation.2.1 "ID" (some [⟨"OTHER", 41⟩]) 7
     (by
       intro c cur h
       simp [get_maxsequence_info] at h
       rw [← h.1]
       decide)
     (by norm_num),
   c6_start_value_derivation.2.2.1 "ID" none none
     (by intro c cur h; simp [get_maxsequence_info] at h)
     (by rw [show get_max_value_from_table none = 0 from rfl]),
   c6_start_value_derivation.2.2.2 "MYTABLE" "ID"⟩

/-- C7 counterexample: with a failing set-default DDL step (and the
create step succeeding), `create_sequence_for_column` logs a warning but
still returns the sequence name — so a call in which a DDL step failed
does NOT return an absent result, refuting "returns None exactly when it
fails" under the reading that any failed DDL step is a failure. -/
theorem c7_return_counterexample :
    (create_sequence_for_column ⟨true, false, true⟩ none "MYTABLE" "ID"
        (some []) (some 5)).2 = some (sequenceNameFor "MYTABLE" "ID") ∧
    (⟨true, false, true⟩ : SeqDDLEnv).setDefaultOk = false ∧
    SEvent.warnLog ∈ (create_sequence_for_column ⟨true, false, true⟩ none "MYTABLE" "ID"
        (some []) (some 5)).1 := by
  refine ⟨rfl, rfl, ?_⟩
  simp [create_sequence_for_column]

/-- C7 amended: `create_sequences_for_table` attempts the create step for
every primary-key column no matter how other columns fare; every failed
DDL step produces a logged warning; and `create_sequence_for_column`
returns an absent result exactly when its `CREATE SEQUENCE` step fails —
failures of the later set-default / ownership steps are logged but the
sequence name is still returned. -/
theorem c7_failure_isolation (env : String → SeqDDLEnv) (table : String)
    (cols : List String) (maxseqRows : Option (List MaxSeqRow))
    (maxQ : String → Option Int) (c : String) (hc : c ∈ cols) :
    ((create_sequence_for_column (env c) none table c maxseqRows (maxQ c)).2 = none ↔
      (env c).createOk = false) ∧
    SEvent.ddlCreateSeq (sequenceNameFor table c)
        (deriveStartValue none c maxseqRows (maxQ c)) ∈
      (create_sequences_for_table env table cols maxseqRows maxQ).1 ∧
    ((env c).setDefaultOk = false →
      SEvent.warnLog ∈
        (create_sequence_for_column (env c) none table c maxseqRows (maxQ c)).1) := by
  refine ⟨?_, ?_, ?_⟩
  · cases h : (env c).createOk <;> simp [create_sequence_for_column, h]
  · induction cols with
    | nil => simp at hc
    | cons d rest ih =>
        rcases List.mem_cons.mp hc with h | h
        · subst h
          simp only [create_sequences_for_table]
          exact List.mem_append_left _ (create_event_mem _ _ _ _ _)
        · simp only [create_sequences_for_table]
          exact List.mem_append_right _ (ih h)
  · intro hsd
    cases hco : (env c).createOk <;> cases how : (env c).ownershipOk <;>
      simp [create_sequence_for_column, hco, hsd, how]

/-- Witness for C7 amended at a concrete input. -/
theorem c7_failure_isolation_witness :
    ((create_sequence_for_column ((fun _ => (⟨true, false, true⟩ : SeqDDLEnv)) "ID")
        none "MYTABLE" "ID" (some []) ((fun _ => some (5 : Int)) "ID")).2 = none ↔
      ((fun _ => (⟨true, false, true⟩ : SeqDDLEnv)) "ID").createOk = false) ∧
    SEvent.ddlCreateSeq (sequenceNameFor "MYTABLE" "ID")
        (deriveStartValue none "ID" (some []) ((fun _ => some (5 : Int)) "ID")) ∈
      (create_sequences_for_table (fun _ => ⟨true, false, true⟩) "MYTABLE" ["ID"]
        (some []) (fun _ => some 5)).1 ∧
    (((fun _ => (⟨true, false, true⟩ : SeqDDLEnv)) "ID").setDefaultOk = false →
      SEvent.warnLog ∈
        (create_sequence_for_column ((fun _ => (⟨true, false, true⟩ : SeqDDLEnv)) "ID")
          none "MYTABLE" "ID" (some []) ((fun _ => some (5 : Int)) "ID")).1) :=
  c7_failure_isolation (fun _ => ⟨true, false, true⟩) "MYTABLE" ["ID"]
    (some []) (fun _ => some 5) "ID" (List.mem_singleton.mpr rfl)

/-- Witness for C5 at a concrete input. -/
theorem c5_sync_idempotent_witness :
    (sync_sequence_after_insert ⟨true, true⟩ (some 7)
        (sync_sequence_after_insert ⟨true, true⟩ (some 7) 0).1).1 =
      (sync_sequence_after_insert ⟨true, true⟩ (some 7) 0).1 ∧
    (sync_sequence_after_insert ⟨true, true⟩ (some 7) 0).2.1 = true ∧
    (∀ s : Int, sync_sequence_after_insert ⟨true, true⟩ none s = (s, true, 0)) :=
  c5_sync_idempotent ⟨true, true⟩ rfl rfl (some 7) 0

/-- C2: over tables `[A, B, C]` where B's `CREATE TABLE` DDL call always
raises: with `continue_on_error=true` the run returns
`status="completed_with_errors"`, `tables_migrated=2`, `tables_failed=1`,
and A and C are fully attempted (each contributes its complete pipeline
trace, through transfer and validation); with `continue_on_error=false`
the exception propagates at B and no call is ever made against C.  In
general a returned status is `"completed"` exactly when `tables_failed`
is zero, else `"completed_with_errors"`. -/
theorem c2_partial_failure :
    run_migration flagsDflt envC2 ⟨["A", "B", "C"], true, true⟩ "full" =
      .ok (fullPipelineTrace "A" ++ failAtDDLTrace "B" ++ fullPipelineTrace "C",
        ⟨"completed_with_errors", 2, 1⟩) ∧
    (fullPipelineTrace "A" ++ failAtDDLTrace "B" ++ fullPipelineTrace "C").filter
        (fun e => e.table = "A") = fullPipelineTrace "A" ∧
    (fullPipelineTrace "A" ++ failAtDDLTrace "B" ++ fullPipelineTrace "C").filter
        (fun e => e.table = "C") = fullPipelineTrace "C" ∧
    run_migration flagsDflt envC2 ⟨["A", "B", "C"], true, false⟩ "full" =
      .error (fullPipelineTrace "A" ++ failAtDDLTrace "B") ∧
    (fullPipelineTrace "A" ++ failAtDDLTrace "B").filter
        (fun e => e.table = "C") = [] ∧
    (∀ (fl : MigratorFlags) (env : String → TableBehavior) (cfg : MigrationConfig)
      (mode : String) (ev : List MEvent) (r : MigrationResult),
      run_migration fl env cfg mode = .ok (ev, r) →
      (r.status = "completed" ↔ r.tables_failed = 0)) := by
  refine ⟨rfl, rfl, rfl, rfl, rfl, ?_⟩
  intro fl env cfg mode ev r h
  simp only [run_migration] at h
  rcases hrl : runLoop fl env mode cfg.validate cfg.continue_on_error cfg.tables [] 0 0
    with ev' | p
  · rw [hrl] at h
    exact absurd h (by simp)
  · obtain ⟨ev', m, f⟩ := p
    rw [hrl] at h
    simp only [Except.ok.injEq, Prod.mk.injEq] at h
    obtain ⟨-, hr⟩ := h
    rw [← hr]
    by_cases hf : f = 0
    · simp [hf]
    · simp [hf]

/-- Witness for C2's general status clause at a concrete run. -/
theorem c2_partial_failure_witness :
    ((⟨"completed_with_errors", 2, 1⟩ : MigrationResult).status = "completed" ↔
      (⟨"completed_with_errors", 2, 1⟩ : MigrationResult).tables_failed = 0) :=
  c2_partial_failure.2.2.2.2.2 flagsDflt envC2 ⟨["A", "B", "C"], true, true⟩ "full"
    (fullPipelineTrace "A" ++ failAtDDLTrace "B" ++ fullPipelineTrace "C")
    ⟨"completed_with_errors", 2, 1⟩ rfl

/-- C3 counterexample: in mode `data_only`, a table whose target does not
exist still receives a `CREATE TABLE` DDL call — the DDL phase is not
skipped "regardless of whether the target table exists". -/
theorem c3_data_only_counterexample :
    run_migration flagsDflt (fun _ => okB) ⟨["T"], true, false⟩ "data_only" =
      .ok (fullPipelineTrace "T", ⟨"completed", 1, 0⟩) ∧
    MEvent.ddlCreateTable "T" ∈ fullPipelineTrace "T" ∧
    ((fullPipelineTrace "T").filter (fun e => e.isDDL)).length = 1 := by
  refine ⟨rfl, by simp [fullPipelineTrace], rfl⟩

/-- C3 amended: the per-table pipeline treats mode `data_only` exactly
like mode `full` (its only mode tests compare against `schema_only`);
consequently no DDL is issued for a table exactly when the target table
already exists and `drop_existing` is off — the same condition as in
`full` mode — and not because of the mode. -/
theorem c3_data_only_behaviour :
    (∀ (fl : MigratorFlags) (env : String → TableBehavior) (v : Bool) (t : String),
      processTable fl env "data_only" v t = processTable fl env "full" v t) ∧
    (∀ (fl : MigratorFlags) (env : String → TableBehavior) (v : Bool) (t : String),
      (env t).tableExists = .ok true → fl.drop_existing = false →
      (processTable fl env "data_only" v t).1.filter (fun e => e.isDDL) = []) := by
  constructor
  · intro fl env v t
    simp only [processTable, phase3rest_mode]
  · intro fl env v t hex hdrop
    rcases h1 : (env t).extractSchema with u1 | u1
    · simp [processTable, h1, MEvent.isDDL]
    · rcases h2 : (env t).extractPKs with u2 | pks
      · simp [processTable, h1, h2, MEvent.isDDL]
      · rcases h3 : (env t).extractFKs with u3 | u3
        · simp [processTable, h1, h2, h3, MEvent.isDDL]
        · rcases h4 : (env t).extractIndexes with u4 | u4
          · simp [processTable, h1, h2, h3, h4, MEvent.isDDL]
          · have hmem := phase3rest_exists_noDDL fl (env t) "data_only" v t pks
            simp [processTable, h1, h2, h3, h4, hex, hdrop, MEvent.isDDL]
            intro a ha
            exact hmem a ha

/-- Witness for C3 amended at a concrete input. -/
theorem c3_data_only_behaviour_witness :
    (processTable flagsDflt (fun _ => okBExists) "data_only" true "T").1.filter
      (fun e => e.isDDL) = [] :=
  c3_data_only_behaviour.2 flagsDflt (fun _ => okBExists) true "T" rfl rfl

/-- C1 counterexample: `run_migration` does not consult the checkpoint
store (in the source, the tracker is only handed to `transfer_table` for
writing progress; no read of it influences control flow): with the
checkpoint recording table A as fully migrated
(`rows_migrated = total_rows = 5`), a run over `[A]` still performs 4
schema-extraction calls, a `CREATE TABLE` DDL call, and a data-transfer
call against A — refuting "zero schema-extraction, DDL, and data-transfer
calls against that table". -/
theorem c1_resume_skip_counterexample :
    lookupTable cpA55 "A" = some (mkTableProgress 5 5) ∧
    (mkTableProgress 5 5).total_rows ≤ (mkTableProgress 5 5).rows_migrated ∧
    run_migration flagsDflt (fun _ => okB) ⟨["A"], true, false⟩ "full" =
      .ok (fullPipelineTrace "A", ⟨"completed", 1, 0⟩) ∧
    ((fullPipelineTrace "A").filter (fun e => e.isExtraction)).length = 4 ∧
    MEvent.ddlCreateTable "A" ∈ fullPipelineTrace "A" ∧
    MEvent.transferTable "A" ∈ fullPipelineTrace "A" := by
  refine ⟨rfl, le_refl _, rfl, rfl, by simp [fullPipelineTrace],
    by simp [fullPipelineTrace]⟩

/-- C1 amended: the checkpoint-based resume skip lives in the CLI
`resume` command, which filters the table list BEFORE calling
`run_migration`: a table recorded with `rows_migrated ≥ total_rows` is
dropped from the list — and hence receives zero calls of any kind — while
a table with no checkpoint entry is kept and receives the full pipeline.
`run_migration` itself processes every table it is handed. -/
theorem c1_resume_filter (p : List (String × TableProgress)) (ra ta : Int) (pc : ℚ)
    (hA : lookupTable p "A" = some ⟨ra, ta, pc⟩) (hge : ta ≤ ra)
    (hB : lookupTable p "B" = none) :
    incompleteTables ["A", "B"] p = ["B"] ∧
    run_migration flagsDflt (fun _ => okB)
        ⟨incompleteTables ["A", "B"] p, true, false⟩ "full" =
      .ok (fullPipelineTrace "B", ⟨"completed", 1, 0⟩) ∧
    (fullPipelineTrace "B").filter (fun e => e.table = "A") = [] ∧
    MEvent.transferTable "B" ∈ fullPipelineTrace "B" := by
  have hlt : ¬ (ra < ta) := not_lt.mpr hge
  have hf : incompleteTables ["A", "B"] p = ["B"] := by
    simp [incompleteTables, hA, hB, hlt]
  refine ⟨hf, ?_, rfl, by simp [fullPipelineTrace]⟩
  rw [hf]
  rfl

/-- Witness for C1 amended at a concrete checkpoint. -/
theorem c1_resume_filter_witness :
    incompleteTables ["A", "B"] cpA55 = ["B"] ∧
    run_migration flagsDflt (fun _ => okB)
        ⟨incompleteTables ["A", "B"] cpA55, true, false⟩ "full" =
      .ok (fullPipelineTrace "B", ⟨"completed", 1, 0⟩) ∧
    (fullPipelineTrace "B").filter (fun e => e.table = "A") = [] ∧
    MEvent.transferTable "B" ∈ fullPipelineTrace "B" :=
  c1_resume_filter cpA55 5 5 (mkTableProgress 5 5).percentage rfl (le_refl 5) rfl

/-- Witness for C10 at a concrete input. -/
theorem c10_first_update_progress_witness :
    lookupTable (update_progress emptyState "t" 5).tables "t" =
      some (mkTableProgress 5 5) ∧
    (mkTableProgress 5 5).rows_migrated = (mkTableProgress 5 5).total_rows ∧
    (mkTableProgress 5 5).percentage = 100 ∧
    (get_summary (update_progress emptyState "t" 5)).completed_tables =
      (get_summary emptyState).completed_tables + 1 :=
  c10_first_update_progress emptyState "t" 5 rfl (by norm_num)

end Db2pgpy
